import Mathlib

/-!
Shallow embedding of the busylight core of the `weatherlight` repository
(`src-tauri/src/busylight.rs` and the brightness helper in
`src-tauri/src/lib.rs`), together with theorems checking the
natural-language specification against it.

Modelling conventions:
* `u8` bytes are `ℕ` with the invariant `< 256` carried as hypotheses where
  it matters; the report buffer `[u8; 65]` is a `List ℕ` of length 65.
* `std::time::Instant` values are `ℕ` timestamps in milliseconds; the
  monotonicity of wall-clock time (`now ≥ last_reconnect`) is a hypothesis.
* The HID environment (device list produced by enumeration, success of a
  `dev.write`) is passed explicitly as data, since it is external I/O.
* `f32` arithmetic in the colour-correction functions is modelled over `ℝ`
  (exact real arithmetic); `x.round()` for the non-negative values that occur
  is `⌊x + 1/2⌋` and the `as u8` cast of a non-negative value is `Int.toNat`
  of the floor.
-/

namespace Weatherlight

/-! ## Protocol encoder: checksum over the first 63 bytes (busylight.rs, `send`) -/

/-- `let sum: u32 = send_buf[0..63].iter().map(|&b| b as u32).sum();`
The bytes are `u8` (each `< 256`), so the 32-bit accumulation over 63 bytes
never wraps; the `% 2^32` mirrors the `u32` type of the accumulator. -/
def chkSum (buf : List ℕ) : ℕ :=
  (buf.take 63).sum % 2 ^ 32

/-- `send_buf[63] = ((sum >> 8) & 0xff) as u8; send_buf[64] = (sum % 256) as u8;` -/
def applyChecksum (buf : List ℕ) : List ℕ :=
  (buf.set 63 ((chkSum buf >>> 8) &&& 0xff)).set 64 (chkSum buf % 256)

/-! ## Device session state (struct `Busylight`) -/

structure DeviceInfo where
  product : Option String
  path : Option String
  vendor_id : ℕ
  product_id : ℕ
deriving DecidableEq, Repr

/-- One entry of the host's HID enumeration (`api.device_list()`); `openable`
records whether `api.open_path` would succeed for this entry. -/
structure HidDev where
  vendor_id : ℕ
  product_id : ℕ
  product : Option String
  path : Option String
  openable : Bool
deriving DecidableEq, Repr

/-- The `Busylight` struct.  `device` is `true` when a `HidDevice` handle is
held; `api` is `true` when `HidApi::new()` succeeded at construction time. -/
structure BusylightState where
  device : Bool
  info : Option DeviceInfo
  is_new_protocol : Bool
  buffer : List ℕ
  api : Bool
  last_reconnect : ℕ
deriving DecidableEq, Repr

/-- `Busylight::new`: zeroed 65-byte buffer except `buffer[8] = 128`. -/
def newBusylight (apiOk : Bool) (t0 : ℕ) : BusylightState :=
  { device := false
    info := none
    is_new_protocol := false
    buffer := (List.replicate 65 0).set 8 128
    api := apiOk
    last_reconnect := t0 }

/-- `let supported_vids = vec![10171, 0x27bb, 0x04d8];` -/
def supported_vids : List ℕ := [10171, 0x27bb, 0x04d8]

/-- The loop in `connect` takes the first enumerated device whose vendor id is
allow-listed and whose path opens successfully. -/
def connPred (d : HidDev) : Bool :=
  decide (d.vendor_id ∈ supported_vids) && d.openable

/-- Buffer framing established at connect time: for the new (Extended)
protocol `buffer[1] = 16` and `buffer[59..=62] = 255`; otherwise
`buffer[1] = 0`. -/
def setupBuffer (isNew : Bool) (buf : List ℕ) : List ℕ :=
  if isNew then ((((buf.set 1 16).set 59 255).set 60 255).set 61 255).set 62 255
  else buf.set 1 0

/-- `Busylight::connect`, with the enumeration result passed in as `devs`.
Returns the new state and whether the call returned `Ok`. -/
def connect (st : BusylightState) (devs : List HidDev) : BusylightState × Bool :=
  if st.api then
    match devs.find? connPred with
    | some d =>
        let is_new : Bool := d.vendor_id == 10171 || d.vendor_id == 0x27bb
        ({ st with
            device := true
            is_new_protocol := is_new
            info := some ⟨d.product, d.path, d.vendor_id, d.product_id⟩
            buffer := setupBuffer is_new st.buffer }, true)
    | none => ({ st with device := false, info := none }, false)
  else ({ st with device := false, info := none }, false)

/-! ## `Busylight::send` -/

/-- The byte slice handed to `dev.write`: the checksummed 65-byte copy for the
Extended protocol, the first 9 bytes otherwise.  The checksum is written to a
stack copy (`let mut send_buf = self.buffer;`), never to the stored buffer. -/
def wireReport (st : BusylightState) : List ℕ :=
  if st.is_new_protocol then (applyChecksum st.buffer).take 65
  else st.buffer.take 9

/-- Observable actions of one `send` call: attempted device writes (with the
bytes handed to `dev.write`) and reconnect attempts (calls to `connect`). -/
inductive SendEvent where
  | wrote (bytes : List ℕ)
  | reconnect
deriving DecidableEq, Repr

/-- External circumstances of one `send` call: the current time, whether the
first `dev.write` returns `Ok`, and the device list a reconnect would see. -/
structure SendEnv where
  now : ℕ
  writeOk : Bool
  devs : List HidDev
deriving Repr

/-- `Busylight::send`.  No device: silently does nothing.  Write failure:
reconnect at most once, rate-limited to `elapsed > 2` seconds, and on a
successful reconnect resend the (re-encoded) stored buffer once. -/
def send (st : BusylightState) (env : SendEnv) : BusylightState × List SendEvent :=
  if st.device then
    let report := wireReport st
    if env.writeOk then (st, [.wrote report])
    else
      if env.now - st.last_reconnect > 2000 then
        let st1 := { st with last_reconnect := env.now, device := false }
        let res := connect st1 env.devs
        if res.2 then
          (res.1, [.wrote report, .reconnect, .wrote (wireReport res.1)])
        else
          (res.1, [.wrote report, .reconnect])
      else (st, [.wrote report])
  else (st, [])

/-- A sequence of `send` calls, accumulating the events. -/
def sendSeq (st : BusylightState) (envs : List SendEnv) : BusylightState × List SendEvent :=
  envs.foldl (fun acc env =>
    let res := send acc.1 env
    (res.1, acc.2 ++ res.2)) (st, [])

/-- `self.buffer[3] = r; self.buffer[4] = g; self.buffer[5] = b;` — the common
buffer mutation of `light`, `light_raw` and `light_pct`. -/
def setRGB (st : BusylightState) (r g b : ℕ) : BusylightState :=
  { st with buffer := ((st.buffer.set 3 r).set 4 g).set 5 b }

/-- `Busylight::light_raw`: store the channels untouched, then send. -/
def light_raw (st : BusylightState) (r g b : ℕ) (env : SendEnv) :
    BusylightState × List SendEvent :=
  send (setRGB st r g b) env

/-! ## Pulse state and controller (struct `PulseState`, `BusylightController`) -/

structure PulseState where
  active : Bool
  color_srgb : ℕ × ℕ × ℕ
  pct_high : ℕ
  pct_low : ℕ
  speed_ms : ℕ
deriving DecidableEq, Repr

/-- `BusylightController::set_pulse`: the stored `PulseState` after the call.
If the stored state already equals the requested one the method returns early
(state untouched); otherwise it overwrites the shared state. -/
def set_pulse (cur : PulseState) (r g b pct_high pct_low speed_ms : ℕ) : PulseState :=
  let new_state : PulseState := ⟨true, (r, g, b), pct_high, pct_low, speed_ms⟩
  if cur = new_state then cur else new_state

/-- `BusylightController::stop_pulse`. -/
def stop_pulse (cur : PulseState) : PulseState :=
  { cur with active := false }

/-- The worker thread's loop-local variables (`idle_ticks`,
`cycle_start_time`, `was_active`). -/
structure WorkerLocals where
  idle_ticks : ℕ
  cycle_start : ℕ
  was_active : Bool
deriving DecidableEq, Repr

/-- The externally observable outcome of one loop iteration of the pulse
worker: a plain sleep of `ms` milliseconds with no device traffic, a pulse
frame computed at triangle-wave `position` (followed by the 33 ms frame
sleep), or a keep-alive `send` (followed by the 100 ms idle sleep).  The
frame's eased RGB payload is a pure function of `position` and the snapshot,
so the phase position is what the tick is characterised by. -/
inductive TickAction where
  | sleep (ms : ℕ)
  | frame (position : ℕ)
  | keepAlive
deriving DecidableEq, Repr

/-- One iteration of the pulse worker loop in `BusylightController::new`,
acting on a snapshot `state` of the shared `PulseState` at time `now`. -/
def tick (state : PulseState) (loc : WorkerLocals) (now : ℕ) :
    WorkerLocals × TickAction :=
  if state.active then
    let loc1 := if loc.was_active = false then
        { loc with cycle_start := now, was_active := true }
      else loc
    let loc2 := { loc1 with idle_ticks := 0 }
    if state.speed_ms = 0 then (loc2, .sleep 100)
    else
      let elapsed := now - loc2.cycle_start
      let position := elapsed % state.speed_ms
      (loc2, .frame position)
  else
    let loc1 := { loc with was_active := false, idle_ticks := loc.idle_ticks + 1 }
    if loc1.idle_ticks ≥ 20 then ({ loc1 with idle_ticks := 0 }, .keepAlive)
    else (loc1, .sleep 100)

/-! ## Colour correction (`f32` arithmetic modelled over `ℝ`) -/

/-- Rust's `x.round()` (round half away from zero) for the non-negative
values produced here. -/
noncomputable def rustRound (x : ℝ) : ℤ := ⌊x + 1 / 2⌋

/-- The un-quantized core of `Busylight::degamma` on the normalized input
`v = val / 255`: linear segment at or below `0.04045`, inverse-sRGB power law
above it. -/
noncomputable def degammaCore (v : ℝ) : ℝ :=
  if v ≤ 0.04045 then v / 12.92 else ((v + 0.055) / 1.055) ^ (2.4 : ℝ)

/-- `Busylight::degamma`: `(corrected * 255.0).clamp(0.0, 255.0).round() as u8`
(clamp first, then round, then the cast). -/
noncomputable def degamma (val : ℕ) : ℕ :=
  (rustRound (min (max (degammaCore ((val : ℝ) / 255) * 255) 0) 255)).toNat

/-- Modelled from the spec's words for comparison with `degamma`:
"re-quantized to 0–255 with round-half-up and clamped to [0,255]" — i.e.
round first, then clamp. -/
noncomputable def degammaSpecOrder (val : ℕ) : ℕ :=
  (min (max (rustRound (degammaCore ((val : ℝ) / 255) * 255)) 0) 255).toNat

/-- The brightness factor of `Busylight::light_pct` and of the pulse worker:
`(pct as f32 / 100.0).clamp(0.0, 1.0)` raised to the power `2.8`. -/
noncomputable def powFactor (pct : ℕ) : ℝ :=
  (min (max ((pct : ℝ) / 100) 0) 1) ^ (2.8 : ℝ)

/-- `(c as f32 * factor) as u8` for a non-negative factor: truncation toward
zero is the floor. -/
noncomputable def scaleChannel (c : ℕ) (factor : ℝ) : ℕ :=
  ⌊(c : ℝ) * factor⌋.toNat

/-- The RGB triple stored by `Busylight::light_pct` (and, with the eased
percentage, by the pulse worker's frame computation). -/
noncomputable def light_pct_rgb (r g b pct : ℕ) : ℕ × ℕ × ℕ :=
  (scaleChannel r (powFactor pct), scaleChannel g (powFactor pct),
    scaleChannel b (powFactor pct))

/-- `apply_brightness` from `src-tauri/src/lib.rs`: the factor is the plain
clamped ratio `pct / 100` — linear, with no power law. -/
noncomputable def apply_brightness (color : ℕ × ℕ × ℕ) (pct : ℕ) : ℕ × ℕ × ℕ :=
  let factor := min (max ((pct : ℝ) / 100) 0) 1
  (scaleChannel color.1 factor, scaleChannel color.2.1 factor,
    scaleChannel color.2.2 factor)

/-- `Busylight::light`: degamma each channel, store, send. -/
noncomputable def light (st : BusylightState) (r g b : ℕ) (env : SendEnv) :
    BusylightState × List SendEvent :=
  send (setRGB st (degamma r) (degamma g) (degamma b)) env

/-- `Busylight::light_pct` as a session operation: store the scaled channels,
send. -/
noncomputable def light_pct (st : BusylightState) (r g b pct : ℕ) (env : SendEnv) :
    BusylightState × List SendEvent :=
  send (setRGB st (scaleChannel r (powFactor pct)) (scaleChannel g (powFactor pct))
    (scaleChannel b (powFactor pct))) env

/-! ## List helper lemmas -/

lemma take_set_of_le {α : Type} (l : List α) (i j : ℕ) (a : α) (h : j ≤ i) :
    (l.set i a).take j = l.take j := by
  apply List.ext_getElem?
  intro n
  rw [List.getElem?_take, List.getElem?_take]
  by_cases hn : n < j
  · rw [if_pos hn, if_pos hn, List.getElem?_set_ne (by omega)]
  · rw [if_neg hn, if_neg hn]

lemma getD_set_ne {l : List ℕ} {i j a d : ℕ} (h : i ≠ j) :
    (l.set i a).getD j d = l.getD j d := by
  rw [List.getD_eq_getElem?_getD, List.getD_eq_getElem?_getD, List.getElem?_set_ne h]

lemma getD_set_self {l : List ℕ} {i a d : ℕ} (h : i < l.length) :
    (l.set i a).getD i d = a := by
  rw [List.getD_eq_getElem?_getD, List.getElem?_set_self h]
  rfl

lemma set_eq_self_of_getD {l : List ℕ} {i a : ℕ} (hi : i < l.length)
    (h : l.getD i 0 = a) : l.set i a = l := by
  apply List.ext_getElem?
  intro n
  rw [List.getElem?_set]
  by_cases hn : i = n
  · subst hn
    rw [if_pos rfl, if_pos hi]
    rw [List.getD_eq_getElem?_getD, List.getElem?_eq_getElem hi] at h
    rw [List.getElem?_eq_getElem hi, ← h]
    rfl
  · rw [if_neg hn]

lemma getD_take_lt {l : List α} [Inhabited α] {n i : ℕ} (h : i < n) (d : α) :
    (l.take n).getD i d = l.getD i d := by
  rw [List.getD_eq_getElem?_getD, List.getD_eq_getElem?_getD, List.getElem?_take,
    if_pos h]

/-! ## Checksum facts -/

lemma chkSum_applyChecksum (buf : List ℕ) :
    chkSum (applyChecksum buf) = chkSum buf := by
  unfold chkSum applyChecksum
  rw [take_set_of_le _ 64 63 _ (by omega), take_set_of_le _ 63 63 _ le_rfl]

lemma applyChecksum_length (buf : List ℕ) :
    (applyChecksum buf).length = buf.length := by
  unfold applyChecksum
  rw [List.length_set, List.length_set]

lemma applyChecksum_getD_63 {buf : List ℕ} (h : buf.length = 65) :
    (applyChecksum buf).getD 63 0 = (chkSum buf >>> 8) &&& 0xff := by
  unfold applyChecksum
  rw [getD_set_ne (by omega), getD_set_self (by omega)]

lemma applyChecksum_getD_64 {buf : List ℕ} (h : buf.length = 65) :
    (applyChecksum buf).getD 64 0 = chkSum buf % 256 := by
  unfold applyChecksum
  rw [getD_set_self (by rw [List.length_set]; omega)]

lemma applyChecksum_getD_ne {buf : List ℕ} {i : ℕ} (h63 : i ≠ 63) (h64 : i ≠ 64) :
    (applyChecksum buf).getD i 0 = buf.getD i 0 := by
  unfold applyChecksum
  rw [getD_set_ne (fun hc => h64 hc.symm), getD_set_ne (fun hc => h63 hc.symm)]

lemma applyChecksum_idem {buf : List ℕ} (h : buf.length = 65) :
    applyChecksum (applyChecksum buf) = applyChecksum buf := by
  conv_lhs => rw [applyChecksum, chkSum_applyChecksum]
  rw [set_eq_self_of_getD (by rw [applyChecksum_length]; omega)
      (applyChecksum_getD_63 h),
    set_eq_self_of_getD (by rw [applyChecksum_length]; omega)
      (applyChecksum_getD_64 h)]

lemma wireReport_extended {st : BusylightState} (hproto : st.is_new_protocol = true)
    (hlen : st.buffer.length = 65) :
    wireReport st = applyChecksum st.buffer := by
  unfold wireReport
  rw [if_pos hproto, List.take_of_length_le (by rw [applyChecksum_length, hlen])]

/-- C1, transmitted-report part of the claim. -/
theorem c1_extended_send_checksum (st : BusylightState) (env : SendEnv)
    (hdev : st.device = true) (hproto : st.is_new_protocol = true)
    (hok : env.writeOk = true) (hlen : st.buffer.length = 65) :
    (send st env).2 = [SendEvent.wrote (wireReport st)] ∧
    (wireReport st).length = 65 ∧
    (wireReport st).getD 63 0 =
      ((((wireReport st).take 63).sum % 2 ^ 32) >>> 8) &&& 0xff ∧
    (wireReport st).getD 64 0 = ((wireReport st).take 63).sum % 2 ^ 32 % 256 ∧
    applyChecksum (applyChecksum st.buffer) = applyChecksum st.buffer := by
  have hw := wireReport_extended hproto hlen
  have htake : (wireReport st).take 63 = st.buffer.take 63 := by
    rw [hw]
    unfold applyChecksum
    rw [take_set_of_le _ 64 63 _ (by omega), take_set_of_le _ 63 63 _ le_rfl]
  refine ⟨?_, ?_, ?_, ?_, applyChecksum_idem hlen⟩
  · unfold send
    rw [if_pos hdev, if_pos hok]
  · rw [hw, applyChecksum_length, hlen]
  · rw [hw, applyChecksum_getD_63 hlen,
      show (List.take 63 (applyChecksum st.buffer)).sum % 2 ^ 32 = chkSum st.buffer
        from chkSum_applyChecksum st.buffer]
  · rw [hw, applyChecksum_getD_64 hlen,
      show (List.take 63 (applyChecksum st.buffer)).sum % 2 ^ 32 = chkSum st.buffer
        from chkSum_applyChecksum st.buffer]

/-! ## Concrete sample devices and sessions, used by witnesses -/

/-- A sample Extended-protocol device (vendor id 10171 = 0x27BB). -/
def extDev : HidDev := ⟨10171, 1, none, none, true⟩

/-- A sample Legacy-protocol device (vendor id 0x04D8). -/
def legDev : HidDev := ⟨0x04d8, 1, none, none, true⟩

/-- A session freshly connected to the sample Extended device. -/
def extSt : BusylightState := (connect (newBusylight true 0) [extDev]).1

/-- A session freshly connected to the sample Legacy device. -/
def legSt : BusylightState := (connect (newBusylight true 0) [legDev]).1

theorem c1_extended_send_checksum_witness :
    (extSt.device = true ∧ extSt.is_new_protocol = true ∧
      (true : Bool) = true ∧ extSt.buffer.length = 65) ∧
    applyChecksum (applyChecksum extSt.buffer) = applyChecksum extSt.buffer :=
  ⟨by decide,
    (c1_extended_send_checksum extSt ⟨0, true, []⟩ (by decide) (by decide) (by decide)
      (by decide)).2.2.2.2⟩

/-! ## Connect / classification facts -/

lemma setupBuffer_length (isNew : Bool) (buf : List ℕ) :
    (setupBuffer isNew buf).length = buf.length := by
  unfold setupBuffer
  split <;> simp [List.length_set]

lemma wireReport_length_extended {st : BusylightState} (hp : st.is_new_protocol = true)
    (hl : st.buffer.length = 65) : (wireReport st).length = 65 := by
  rw [wireReport_extended hp hl, applyChecksum_length, hl]

lemma wireReport_length_legacy {st : BusylightState} (hp : st.is_new_protocol = false)
    (hl : 9 ≤ st.buffer.length) : (wireReport st).length = 9 := by
  unfold wireReport
  rw [if_neg (by simp [hp]), List.length_take]
  omega

lemma connect_found {st : BusylightState} {devs : List HidDev} {d : HidDev}
    (hapi : st.api = true) (hf : devs.find? connPred = some d) :
    connect st devs =
      ({ st with
          device := true
          is_new_protocol := (d.vendor_id == 10171 || d.vendor_id == 0x27bb)
          info := some ⟨d.product, d.path, d.vendor_id, d.product_id⟩
          buffer := setupBuffer (d.vendor_id == 10171 || d.vendor_id == 0x27bb)
            st.buffer }, true) := by
  unfold connect
  rw [if_pos hapi, hf]

lemma send_writeOk {st : BusylightState} {env : SendEnv} (hdev : st.device = true)
    (hok : env.writeOk = true) :
    send st env = (st, [SendEvent.wrote (wireReport st)]) := by
  unfold send
  rw [if_pos hdev, if_pos hok]

/-- C2: vendor-id classification at connect time and the resulting report
sizes. -/
theorem c2_vendor_classification (st : BusylightState) (devs : List HidDev)
    (hapi : st.api = true) (hlen : st.buffer.length = 65) :
    (∀ d, devs.find? connPred = some d →
      d.vendor_id ∈ supported_vids ∧
      (connect st devs).2 = true ∧
      (connect st devs).1.device = true ∧
      (connect st devs).1.buffer.length = 65 ∧
      ((d.vendor_id = 10171 ∨ d.vendor_id = 0x27bb) →
        (connect st devs).1.is_new_protocol = true ∧
        (wireReport (connect st devs).1).length = 65) ∧
      (d.vendor_id = 0x04d8 →
        (connect st devs).1.is_new_protocol = false ∧
        (wireReport (connect st devs).1).length = 9)) ∧
    (devs.find? connPred = none →
      (connect st devs).2 = false ∧ (connect st devs).1.device = false) ∧
    (∀ st2 : BusylightState, st2.device = true → st2.buffer.length = 65 →
      ∀ env : SendEnv, env.writeOk = true →
        (send st2 env).2 = [SendEvent.wrote (wireReport st2)] ∧
        (st2.is_new_protocol = true → (wireReport st2).length = 65) ∧
        (st2.is_new_protocol = false → (wireReport st2).length = 9)) := by
  refine ⟨?_, ?_, ?_⟩
  · intro d hf
    have hpred : connPred d = true := List.find?_some hf
    have hmem : d.vendor_id ∈ supported_vids := by
      have := (Bool.and_eq_true _ _).mp hpred
      exact of_decide_eq_true this.1
    have hc := connect_found hapi hf
    rw [hc]
    refine ⟨hmem, rfl, rfl, ?_, ?_, ?_⟩
    · simp only [setupBuffer_length, hlen]
    · intro hvid
      have hb : (d.vendor_id == 10171 || d.vendor_id == 0x27bb) = true := by
        rcases hvid with h | h <;> simp [h]
      refine ⟨by simp only [hb], ?_⟩
      exact wireReport_length_extended (by simp only [hb])
        (by simp only [setupBuffer_length, hlen])
    · intro hvid
      have hb : (d.vendor_id == 10171 || d.vendor_id == 0x27bb) = false := by
        rw [hvid]; decide
      refine ⟨by simp only [hb], ?_⟩
      exact wireReport_length_legacy (by simp only [hb])
        (by simp only [setupBuffer_length, hlen]; omega)
  · intro hf
    unfold connect
    rw [if_pos hapi, hf]
    exact ⟨rfl, rfl⟩
  · intro st2 hdev hl env hok
    refine ⟨by rw [send_writeOk hdev hok], ?_, ?_⟩
    · intro hp
      exact wireReport_length_extended hp hl
    · intro hp
      exact wireReport_length_legacy hp (by omega)

theorem c2_vendor_classification_witness :
    ((newBusylight true 0).api = true ∧ (newBusylight true 0).buffer.length = 65 ∧
      [extDev].find? connPred = some extDev ∧ extDev.vendor_id = 10171) ∧
    ((connect (newBusylight true 0) [extDev]).1.is_new_protocol = true ∧
      (wireReport (connect (newBusylight true 0) [extDev]).1).length = 65) :=
  ⟨by decide,
    (((c2_vendor_classification (newBusylight true 0) [extDev] (by decide)
      (by decide)).1 extDev (by decide)).2.2.2.2.1 (Or.inl (by decide)))⟩

/-! ## Send-path characterizations -/

lemma send_no_device {st : BusylightState} (env : SendEnv)
    (hdev : st.device = false) : send st env = (st, []) := by
  unfold send
  rw [if_neg (by simp [hdev])]

lemma send_state_id {st : BusylightState} {env : SendEnv} (hok : env.writeOk = true) :
    (send st env).1 = st := by
  by_cases hd : st.device = true
  · rw [send_writeOk hd hok]
  · rw [send_no_device env (by simpa using hd)]

lemma connect_fail {st : BusylightState} {devs : List HidDev}
    (hf : devs.find? connPred = none) :
    connect st devs = ({ st with device := false, info := none }, false) := by
  unfold connect
  by_cases ha : st.api = true
  · rw [if_pos ha, hf]
  · rw [if_neg ha]

lemma send_fail_reconnect {st : BusylightState} {env : SendEnv}
    (hdev : st.device = true) (hok : env.writeOk = false)
    (hrl : env.now - st.last_reconnect > 2000) :
    send st env =
      (if (connect { st with last_reconnect := env.now, device := false } env.devs).2 then
        ((connect { st with last_reconnect := env.now, device := false } env.devs).1,
          [.wrote (wireReport st), .reconnect,
            .wrote (wireReport
              (connect { st with last_reconnect := env.now, device := false } env.devs).1)])
      else
        ((connect { st with last_reconnect := env.now, device := false } env.devs).1,
          [.wrote (wireReport st), .reconnect])) := by
  unfold send
  rw [if_pos hdev, if_neg (by simp [hok]), if_pos hrl]

lemma send_fail_ratelimited {st : BusylightState} {env : SendEnv}
    (hdev : st.device = true) (hok : env.writeOk = false)
    (hrl : ¬ env.now - st.last_reconnect > 2000) :
    send st env = (st, [.wrote (wireReport st)]) := by
  unfold send
  rw [if_pos hdev, if_neg (by simp [hok]), if_neg hrl]

/-! ## C9: only the colour channels and (Extended) the checksum trailer vary -/

lemma setRGB_getD_ne {st : BusylightState} {r g b i : ℕ}
    (h3 : i ≠ 3) (h4 : i ≠ 4) (h5 : i ≠ 5) :
    (setRGB st r g b).buffer.getD i 0 = st.buffer.getD i 0 := by
  unfold setRGB
  rw [getD_set_ne (Ne.symm h5), getD_set_ne (Ne.symm h4), getD_set_ne (Ne.symm h3)]

lemma setRGB_length (st : BusylightState) (r g b : ℕ) :
    (setRGB st r g b).buffer.length = st.buffer.length := by
  unfold setRGB
  simp [List.length_set]

lemma wireReport_getD_congr {st1 st2 : BusylightState}
    (hp : st1.is_new_protocol = st2.is_new_protocol)
    (hl1 : st1.buffer.length = 65) (hl2 : st2.buffer.length = 65)
    (hbuf : ∀ j, j ≠ 3 → j ≠ 4 → j ≠ 5 → st1.buffer.getD j 0 = st2.buffer.getD j 0)
    {i : ℕ} (h3 : i ≠ 3) (h4 : i ≠ 4) (h5 : i ≠ 5) (h63 : i ≠ 63) (h64 : i ≠ 64) :
    (wireReport st1).getD i 0 = (wireReport st2).getD i 0 := by
  by_cases hnew : st1.is_new_protocol = true
  · rw [wireReport_extended hnew hl1, wireReport_extended (hp ▸ hnew) hl2,
      applyChecksum_getD_ne h63 h64, applyChecksum_getD_ne h63 h64]
    exact hbuf i h3 h4 h5
  · have hnew1 : st1.is_new_protocol = false := by simpa using hnew
    unfold wireReport
    rw [if_neg (by simp [hnew1]), if_neg (by simp [hp ▸ hnew1])]
    by_cases hi : i < 9
    · rw [getD_take_lt hi, getD_take_lt hi]
      exact hbuf i h3 h4 h5
    · rw [List.getD_eq_default _ _ (by rw [List.length_take]; omega),
        List.getD_eq_default _ _ (by rw [List.length_take]; omega)]

/-- C9: after connect-time setup, the light-writing operations and a
(successful) send leave all framing bytes of the stored buffer untouched, and
two transmitted reports that differ only in the colour channels differ only at
bytes 3–5 and (Extended) 63–64. -/
theorem c9_framing_invariant (st : BusylightState) (r g b pct : ℕ) (env : SendEnv)
    (hok : env.writeOk = true) (hlen : st.buffer.length = 65) :
    (∀ i, i ≠ 3 → i ≠ 4 → i ≠ 5 →
      (light st r g b env).1.buffer.getD i 0 = st.buffer.getD i 0 ∧
      (light_raw st r g b env).1.buffer.getD i 0 = st.buffer.getD i 0 ∧
      (light_pct st r g b pct env).1.buffer.getD i 0 = st.buffer.getD i 0) ∧
    (send st env).1 = st ∧
    (∀ i, i ≠ 3 → i ≠ 4 → i ≠ 5 → i ≠ 63 → i ≠ 64 →
      (wireReport (setRGB st r g b)).getD i 0 = (wireReport st).getD i 0) := by
  refine ⟨?_, send_state_id hok, ?_⟩
  · intro i h3 h4 h5
    refine ⟨?_, ?_, ?_⟩
    · unfold light
      rw [send_state_id hok]
      exact setRGB_getD_ne h3 h4 h5
    · unfold light_raw
      rw [send_state_id hok]
      exact setRGB_getD_ne h3 h4 h5
    · unfold light_pct
      rw [send_state_id hok]
      exact setRGB_getD_ne h3 h4 h5
  · intro i h3 h4 h5 h63 h64
    exact @wireReport_getD_congr (setRGB st r g b) st rfl
      (by rw [setRGB_length, hlen]) hlen
      (fun j j3 j4 j5 => setRGB_getD_ne j3 j4 j5) i h3 h4 h5 h63 h64

theorem c9_framing_invariant_witness :
    ((⟨0, true, []⟩ : SendEnv).writeOk = true ∧ extSt.buffer.length = 65) ∧
    (send extSt ⟨0, true, []⟩).1 = extSt :=
  ⟨by decide,
    (c9_framing_invariant extSt 1 2 3 4 ⟨0, true, []⟩ (by decide) (by decide)).2.1⟩

/-! ## C10: send with no open handle is a silent no-op -/

/-- C10: a `send` with no device handle does nothing at all (no write, no
reconnect, state bit-identical), and once a write failure's reconnect attempt
itself fails, the session is left disconnected, so every later `send` is such
a no-op until `connect` is called from outside the send path. -/
theorem c10_send_noop_when_disconnected :
    (∀ (st : BusylightState) (env : SendEnv), st.device = false →
      send st env = (st, [])) ∧
    (∀ (st : BusylightState) (env : SendEnv),
      st.device = true → env.writeOk = false →
      env.now - st.last_reconnect > 2000 →
      env.devs.find? connPred = none →
      (send st env).1.device = false ∧
      (send st env).2 = [.wrote (wireReport st), .reconnect] ∧
      ∀ env2 : SendEnv, send (send st env).1 env2 = ((send st env).1, [])) := by
  constructor
  · intro st env hdev
    exact send_no_device env hdev
  · intro st env hdev hok hrl hf
    rw [send_fail_reconnect hdev hok hrl, connect_fail hf]
    refine ⟨rfl, rfl, ?_⟩
    intro env2
    exact send_no_device env2 rfl

theorem c10_send_noop_when_disconnected_witness :
    ((newBusylight true 0).device = false) ∧
    send (newBusylight true 0) ⟨5, true, []⟩ = (newBusylight true 0, []) :=
  ⟨by decide,
    c10_send_noop_when_disconnected.1 (newBusylight true 0) ⟨5, true, []⟩ (by decide)⟩

/-! ## C7: rate-limited reconnect with one best-effort resend -/

/-- The condition under which `send` enters its reconnect branch. -/
def reconnectCond (st : BusylightState) (env : SendEnv) : Prop :=
  st.device = true ∧ env.writeOk = false ∧ env.now - st.last_reconnect > 2000

instance (st : BusylightState) (env : SendEnv) : Decidable (reconnectCond st env) := by
  unfold reconnectCond
  infer_instance

lemma wireReport_congr {s1 s2 : BusylightState}
    (hp : s1.is_new_protocol = s2.is_new_protocol) (hb : s1.buffer = s2.buffer) :
    wireReport s1 = wireReport s2 := by
  unfold wireReport
  rw [hp, hb]

lemma connect_last_reconnect (st : BusylightState) (devs : List HidDev) :
    (connect st devs).1.last_reconnect = st.last_reconnect := by
  unfold connect
  by_cases ha : st.api = true
  · rw [if_pos ha]
    cases hf : devs.find? connPred <;> simp only [hf]
  · rw [if_neg ha]

lemma count_reconnect_send (st : BusylightState) (env : SendEnv) :
    (send st env).2.count SendEvent.reconnect =
      if reconnectCond st env then 1 else 0 := by
  by_cases hdev : st.device = true
  · by_cases hok : env.writeOk = true
    · rw [send_writeOk hdev hok,
        if_neg (fun hc => by have h := hc.2.1; rw [hok] at h; simp at h)]
      simp [List.count_cons]
    · have hok2 : env.writeOk = false := by simpa using hok
      by_cases hrl : env.now - st.last_reconnect > 2000
      · have hcond : reconnectCond st env := ⟨hdev, hok2, hrl⟩
        rw [send_fail_reconnect hdev hok2 hrl, if_pos hcond]
        split <;> simp [List.count_cons]
      · rw [send_fail_ratelimited hdev hok2 hrl, if_neg (fun hc => hrl hc.2.2)]
        simp [List.count_cons]
  · rw [send_no_device env (by simpa using hdev), if_neg (fun hc => hdev hc.1)]
    simp

lemma last_reconnect_send (st : BusylightState) (env : SendEnv) :
    (send st env).1.last_reconnect =
      if reconnectCond st env then env.now else st.last_reconnect := by
  by_cases hdev : st.device = true
  · by_cases hok : env.writeOk = true
    · rw [send_writeOk hdev hok,
        if_neg (fun hc => by have h := hc.2.1; rw [hok] at h; simp at h)]
    · have hok2 : env.writeOk = false := by simpa using hok
      by_cases hrl : env.now - st.last_reconnect > 2000
      · have hcond : reconnectCond st env := ⟨hdev, hok2, hrl⟩
        rw [send_fail_reconnect hdev hok2 hrl, if_pos hcond]
        split <;> rw [connect_last_reconnect]
      · rw [send_fail_ratelimited hdev hok2 hrl, if_neg (fun hc => hrl hc.2.2)]
  · rw [send_no_device env (by simpa using hdev), if_neg (fun hc => hdev hc.1)]

lemma sendSeq_three (st : BusylightState) (e1 e2 e3 : SendEnv) :
    (sendSeq st [e1, e2, e3]).2 =
      (send st e1).2 ++ (send (send st e1).1 e2).2 ++
        (send (send (send st e1).1 e2).1 e3).2 := by
  simp [sendSeq]

/-- C7: at most one reconnect attempt per failing send; reconnects are
rate-limited to one per 2 s, so three consecutive failures within one second
produce at most one attempt; on a successful reconnect the pending frame is
re-encoded from the stored buffer and resent exactly once. -/
theorem c7_reconnect_rate_limited :
    (∀ (st : BusylightState) (env : SendEnv),
      (send st env).2.count SendEvent.reconnect ≤ 1) ∧
    (∀ (st : BusylightState) (env : SendEnv),
      env.now ≤ st.last_reconnect + 2000 →
      (send st env).2.count SendEvent.reconnect = 0) ∧
    (∀ (st : BusylightState) (e1 e2 e3 : SendEnv),
      e1.writeOk = false → e2.writeOk = false → e3.writeOk = false →
      e1.now ≤ e2.now → e2.now ≤ e3.now → e3.now ≤ e1.now + 1000 →
      (sendSeq st [e1, e2, e3]).2.count SendEvent.reconnect ≤ 1) ∧
    (∀ (st : BusylightState) (env : SendEnv) (d : HidDev),
      st.device = true → env.writeOk = false →
      env.now - st.last_reconnect > 2000 →
      st.api = true → env.devs.find? connPred = some d →
      ((send st env).2 = [.wrote (wireReport st), .reconnect,
        .wrote (wireReport (send st env).1)] ∧
       (st.is_new_protocol = true → d.vendor_id = 10171 →
        st.buffer.length = 65 →
        st.buffer.getD 1 0 = 16 → st.buffer.getD 59 0 = 255 →
        st.buffer.getD 60 0 = 255 → st.buffer.getD 61 0 = 255 →
        st.buffer.getD 62 0 = 255 →
        wireReport (send st env).1 = wireReport st))) := by
  refine ⟨?_, ?_, ?_, ?_⟩
  · intro st env
    rw [count_reconnect_send]
    split <;> omega
  · intro st env hle
    rw [count_reconnect_send, if_neg (fun hc => by have h := hc.2.2; omega)]
  · intro st e1 e2 e3 h1f h2f h3f hm1 hm2 hm3
    rw [sendSeq_three, List.count_append, List.count_append,
      count_reconnect_send, count_reconnect_send, count_reconnect_send]
    have hlr1 := last_reconnect_send st e1
    have hlr2 := last_reconnect_send (send st e1).1 e2
    by_cases h1 : reconnectCond st e1
    · rw [if_pos h1] at hlr1
      have h2 : ¬ reconnectCond (send st e1).1 e2 := by
        rintro ⟨-, -, hgt⟩
        omega
      rw [if_neg h2] at hlr2
      have h3 : ¬ reconnectCond (send (send st e1).1 e2).1 e3 := by
        rintro ⟨-, -, hgt⟩
        rw [hlr2, hlr1] at hgt
        omega
      rw [if_pos h1, if_neg h2, if_neg h3]
    · rw [if_neg h1] at hlr1
      by_cases h2 : reconnectCond (send st e1).1 e2
      · rw [if_pos h2] at hlr2
        have h3 : ¬ reconnectCond (send (send st e1).1 e2).1 e3 := by
          rintro ⟨-, -, hgt⟩
          rw [hlr2] at hgt
          omega
        rw [if_neg h1, if_pos h2, if_neg h3]
      · rw [if_neg h1, if_neg h2]
        split <;> omega
  · intro st env d hdev hok hrl hapi hf
    have hconn := @connect_found { st with last_reconnect := env.now, device := false }
      env.devs d hapi hf
    rw [send_fail_reconnect hdev hok hrl, hconn]
    refine ⟨rfl, ?_⟩
    intro hproto hvid hlen h1 h59 h60 h61 h62
    apply wireReport_congr
    · simp only [hvid, hproto]
      rfl
    · simp only [hvid]
      show setupBuffer ((10171 : ℕ) == 10171 || (10171 : ℕ) == 0x27bb) st.buffer = st.buffer
      unfold setupBuffer
      rw [if_pos (show ((10171 : ℕ) == 10171 || (10171 : ℕ) == 0x27bb) = true by decide)]
      rw [set_eq_self_of_getD (by omega) h1, set_eq_self_of_getD (by omega) h59,
        set_eq_self_of_getD (by omega) h60, set_eq_self_of_getD (by omega) h61,
        set_eq_self_of_getD (by omega) h62]

theorem c7_reconnect_rate_limited_witness :
    ((1000 : ℕ) ≤ extSt.last_reconnect + 2000) ∧
    (send extSt ⟨1000, false, []⟩).2.count SendEvent.reconnect = 0 :=
  ⟨by decide, c7_reconnect_rate_limited.2.1 extSt ⟨1000, false, []⟩ (by decide)⟩

/-! ## C8: a zero period never divides and falls back to the idle sleep -/

/-- C8: with `active = true` and `speed_ms = 0` the worker tick performs no
modulo by the period (structurally: the `.frame` branch, the only one that
divides by `speed_ms`, is not taken), emits no frame and no keep-alive write,
and sleeps the fixed 100 ms idle interval. -/
theorem c8_zero_period_idle_sleep (state : PulseState) (loc : WorkerLocals) (now : ℕ)
    (hact : state.active = true) (hspeed : state.speed_ms = 0) :
    (tick state loc now).2 = TickAction.sleep 100 ∧
    (∀ pos, (tick state loc now).2 ≠ TickAction.frame pos) ∧
    (tick state loc now).2 ≠ TickAction.keepAlive := by
  have h : (tick state loc now).2 = TickAction.sleep 100 := by
    unfold tick
    rw [if_pos hact, if_pos hspeed]
  refine ⟨h, ?_, ?_⟩
  · intro pos
    rw [h]
    exact fun hc => TickAction.noConfusion hc
  · rw [h]
    exact fun hc => TickAction.noConfusion hc

theorem c8_zero_period_idle_sleep_witness :
    ((⟨true, (9, 9, 9), 100, 50, 0⟩ : PulseState).active = true ∧
      (⟨true, (9, 9, 9), 100, 50, 0⟩ : PulseState).speed_ms = 0) ∧
    (tick ⟨true, (9, 9, 9), 100, 50, 0⟩ ⟨0, 0, false⟩ 42).2 = TickAction.sleep 100 :=
  ⟨by decide,
    (c8_zero_period_idle_sleep ⟨true, (9, 9, 9), 100, 50, 0⟩ ⟨0, 0, false⟩ 42
      (by decide) (by decide)).1⟩

/-! ## C6: set_pulse with identical parameters is a no-op -/

/-- C6: calling `set_pulse` with parameters bit-for-bit identical to the
stored state leaves the shared state untouched, and the worker — already in
the active phase — keeps its cycle start, so two consecutive frames continue
at phases measured from the original cycle start rather than restarting. -/
theorem c6_set_pulse_idempotent (cur : PulseState) (r g b ph pl s : ℕ)
    (heq : cur = ⟨true, (r, g, b), ph, pl, s⟩) (hs : s ≠ 0)
    (loc : WorkerLocals) (t1 t2 : ℕ) (hwa : loc.was_active = true) :
    set_pulse cur r g b ph pl s = cur ∧
    (tick (set_pulse cur r g b ph pl s) loc t1).1.cycle_start = loc.cycle_start ∧
    (tick (set_pulse cur r g b ph pl s) loc t1).2 =
      TickAction.frame ((t1 - loc.cycle_start) % s) ∧
    (tick (set_pulse cur r g b ph pl s)
        (tick (set_pulse cur r g b ph pl s) loc t1).1 t2).2 =
      TickAction.frame ((t2 - loc.cycle_start) % s) := by
  have hsp : set_pulse cur r g b ph pl s = cur := by
    unfold set_pulse
    rw [if_pos heq]
  have hact : cur.active = true := by rw [heq]
  have hspeed : cur.speed_ms = s := by rw [heq]
  have htick : ∀ lc : WorkerLocals, lc.was_active = true → lc.cycle_start = loc.cycle_start →
      ∀ t, tick cur lc t = ({ lc with idle_ticks := 0 },
        TickAction.frame ((t - loc.cycle_start) % s)) := by
    intro lc hl hcs t
    simp [tick, hact, hl, hspeed, hcs, hs]
  rw [hsp]
  refine ⟨rfl, ?_, ?_, ?_⟩
  · rw [htick loc hwa rfl t1]
  · rw [htick loc hwa rfl t1]
  · rw [htick loc hwa rfl t1]
    rw [htick { loc with idle_ticks := 0 } hwa rfl t2]

theorem c6_set_pulse_idempotent_witness :
    ((⟨true, (1, 2, 3), 90, 40, 800⟩ : PulseState) = ⟨true, (1, 2, 3), 90, 40, 800⟩ ∧
      (800 : ℕ) ≠ 0 ∧ (⟨7, 100, true⟩ : WorkerLocals).was_active = true) ∧
    set_pulse ⟨true, (1, 2, 3), 90, 40, 800⟩ 1 2 3 90 40 800 =
      ⟨true, (1, 2, 3), 90, 40, 800⟩ :=
  ⟨by decide,
    (c6_set_pulse_idempotent ⟨true, (1, 2, 3), 90, 40, 800⟩ 1 2 3 90 40 800
      (by decide) (by decide) ⟨7, 100, true⟩ 150 183 (by decide)).1⟩

/-! ## C5: does a parameter change restart the pulse cycle? -/

/-- C5, counterexample: the stored state is an active pulse with colour
(10,0,0); `set_pulse` is called with the different colour (20,0,0) and the
same envelope, so the state is replaced — yet on the scheduler's next tick
(worker already active, cycle started at time 0, now = 500, period 1000 ms)
the phase position is 500, not 0: the eased cycle does NOT restart from the
beginning. -/
theorem c5_counterexample :
    set_pulse ⟨true, (10, 0, 0), 100, 50, 1000⟩ 20 0 0 100 50 1000 =
      ⟨true, (20, 0, 0), 100, 50, 1000⟩ ∧
    (⟨true, (20, 0, 0), 100, 50, 1000⟩ : PulseState) ≠
      ⟨true, (10, 0, 0), 100, 50, 1000⟩ ∧
    (tick ⟨true, (20, 0, 0), 100, 50, 1000⟩ ⟨0, 0, true⟩ 500).2 =
      TickAction.frame 500 ∧
    (500 : ℕ) ≠ 0 := by
  decide

/-- C5, amended: `set_pulse` with changed parameters atomically replaces the
shared state and the scheduler picks it up on its next tick; but the cycle
start is latched only on the inactive→active transition, so the phase
restarts at zero only when the worker last observed an inactive state — if a
pulse was already active, the phase continues from the existing cycle
start. -/
theorem c5_set_pulse_replaces_state (cur : PulseState) (r g b ph pl s : ℕ)
    (hs : s ≠ 0) :
    set_pulse cur r g b ph pl s = ⟨true, (r, g, b), ph, pl, s⟩ ∧
    (∀ (loc : WorkerLocals) (now : ℕ), loc.was_active = false →
      (tick (set_pulse cur r g b ph pl s) loc now).1.cycle_start = now ∧
      (tick (set_pulse cur r g b ph pl s) loc now).2 = TickAction.frame 0) ∧
    (∀ (loc : WorkerLocals) (now : ℕ), loc.was_active = true →
      (tick (set_pulse cur r g b ph pl s) loc now).1.cycle_start = loc.cycle_start ∧
      (tick (set_pulse cur r g b ph pl s) loc now).2 =
        TickAction.frame ((now - loc.cycle_start) % s)) := by
  have hsp : set_pulse cur r g b ph pl s = ⟨true, (r, g, b), ph, pl, s⟩ := by
    unfold set_pulse
    by_cases hc : cur = (⟨true, (r, g, b), ph, pl, s⟩ : PulseState)
    · simp [hc]
    · simp [hc]
  rw [hsp]
  refine ⟨rfl, ?_, ?_⟩
  · intro loc now hwa
    refine ⟨?_, ?_⟩ <;> simp [tick, hwa, hs]
  · intro loc now hwa
    refine ⟨?_, ?_⟩ <;> simp [tick, hwa, hs]

theorem c5_set_pulse_replaces_state_witness :
    ((1000 : ℕ) ≠ 0 ∧ (⟨0, 0, false⟩ : WorkerLocals).was_active = false) ∧
    (tick (set_pulse ⟨false, (0, 0, 0), 100, 50, 1000⟩ 3 4 5 100 50 1000)
        ⟨0, 0, false⟩ 77).1.cycle_start = 77 ∧
    (tick (set_pulse ⟨false, (0, 0, 0), 100, 50, 1000⟩ 3 4 5 100 50 1000)
        ⟨0, 0, false⟩ 77).2 = TickAction.frame 0 :=
  ⟨by decide,
    (c5_set_pulse_replaces_state ⟨false, (0, 0, 0), 100, 50, 1000⟩ 3 4 5 100 50 1000
      (by decide)).2.1 ⟨0, 0, false⟩ 77 (by decide)⟩

/-! ## Real-power helper lemmas -/

lemma rpow_ratio_le {a x : ℝ} (ha : 0 ≤ a) (hx : 0 ≤ x) {p q : ℕ} (hq : 0 < q)
    (h : a ^ q ≤ x ^ p) : a ≤ x ^ ((p : ℝ) / q) := by
  have hq2 : ((q : ℝ)) ≠ 0 := Nat.cast_ne_zero.mpr hq.ne'
  have h2 : ((a ^ q : ℝ)) ^ ((1 : ℝ) / q) ≤ ((x ^ p : ℝ)) ^ ((1 : ℝ) / q) :=
    Real.rpow_le_rpow (by positivity) h (by positivity)
  rw [← Real.rpow_natCast a q, ← Real.rpow_natCast x p, ← Real.rpow_mul ha,
    ← Real.rpow_mul hx, mul_one_div, mul_one_div, div_self hq2, Real.rpow_one] at h2
  exact h2

/-! ## C4: degamma -/

lemma degammaCore_nonneg {v : ℝ} (hv : 0 ≤ v) : 0 ≤ degammaCore v := by
  unfold degammaCore
  split
  · exact div_nonneg hv (by norm_num)
  · exact Real.rpow_nonneg (div_nonneg (by linarith) (by norm_num)) _

lemma degammaCore_le_one {v : ℝ} (hv0 : 0 ≤ v) (hv1 : v ≤ 1) : degammaCore v ≤ 1 := by
  unfold degammaCore
  split
  · rw [div_le_one (by norm_num)]
    linarith
  · refine Real.rpow_le_one (div_nonneg (by linarith) (by norm_num)) ?_ (by norm_num)
    rw [div_le_one (by norm_num)]
    linarith

lemma degammaCore_mono {x y : ℝ} (hx : 0 ≤ x) (hxy : x ≤ y) :
    degammaCore x ≤ degammaCore y := by
  unfold degammaCore
  by_cases hyc : y ≤ 0.04045
  · rw [if_pos (by linarith), if_pos hyc]
    gcongr
  · rw [if_neg hyc]
    push_neg at hyc
    by_cases hxc : x ≤ 0.04045
    · rw [if_pos hxc]
      have hj : (0.04045 : ℝ) / 12.92 ≤ ((0.04045 + 0.055) / 1.055) ^ (2.4 : ℝ) := by
        have h1 : ((0.04045 : ℝ) / 12.92) ^ (5 : ℕ) ≤
            (((0.04045 + 0.055) / 1.055) : ℝ) ^ (12 : ℕ) := by norm_num
        have h2 := rpow_ratio_le (by norm_num) (by norm_num)
          (by norm_num : (0 : ℕ) < 5) h1
        have h3 : ((12 : ℕ) : ℝ) / ((5 : ℕ) : ℝ) = (2.4 : ℝ) := by norm_num
        rwa [h3] at h2
      calc x / 12.92 ≤ 0.04045 / 12.92 := by gcongr
        _ ≤ ((0.04045 + 0.055) / 1.055) ^ (2.4 : ℝ) := hj
        _ ≤ ((y + 0.055) / 1.055) ^ (2.4 : ℝ) := by
              refine Real.rpow_le_rpow (by norm_num) ?_ (by norm_num)
              gcongr
    · rw [if_neg hxc]
      refine Real.rpow_le_rpow (by positivity) ?_ (by norm_num)
      gcongr

lemma rustRound_nonneg {x : ℝ} (hx : 0 ≤ x) : 0 ≤ rustRound x := by
  unfold rustRound
  exact Int.floor_nonneg.mpr (by linarith)

lemma rustRound_le_int {x : ℝ} {n : ℤ} (hx : x ≤ n) : rustRound x ≤ n := by
  unfold rustRound
  have h2 : ⌊x + 1 / 2⌋ < n + 1 := Int.floor_lt.mpr (by push_cast; linarith)
  omega

lemma rustRound_mono {x y : ℝ} (h : x ≤ y) : rustRound x ≤ rustRound y :=
  Int.floor_le_floor (by linarith)

lemma core255_bounds {val : ℕ} (h : val ≤ 255) :
    0 ≤ degammaCore ((val : ℝ) / 255) * 255 ∧
      degammaCore ((val : ℝ) / 255) * 255 ≤ 255 := by
  have hv0 : (0 : ℝ) ≤ (val : ℝ) / 255 := by positivity
  have hv1 : (val : ℝ) / 255 ≤ 1 := by
    rw [div_le_one (by norm_num)]
    exact_mod_cast h
  have h0 := degammaCore_nonneg hv0
  have h1 := degammaCore_le_one hv0 hv1
  constructor <;> nlinarith

lemma degamma_eq_spec_order {val : ℕ} (h : val ≤ 255) :
    degamma val = degammaSpecOrder val := by
  obtain ⟨h0, h255⟩ := core255_bounds h
  unfold degamma degammaSpecOrder
  rw [max_eq_left h0, min_eq_left h255, max_eq_left (rustRound_nonneg h0),
    min_eq_left (rustRound_le_int (by exact_mod_cast h255))]

lemma degamma_zero : degamma 0 = 0 := by
  unfold degamma degammaCore rustRound
  have h1 : ((0 : ℕ) : ℝ) / 255 = 0 := by norm_num
  rw [h1, if_pos (by norm_num)]
  have h2 : ((0 : ℝ) / 12.92 * 255) = 0 := by norm_num
  rw [h2]
  have h3 : (min (max (0 : ℝ) 0) 255) = 0 := by norm_num
  rw [h3]
  have h4 : ⌊(0 : ℝ) + 1 / 2⌋ = 0 := by
    rw [Int.floor_eq_iff]
    norm_num
  rw [h4]
  rfl

lemma degamma_255 : degamma 255 = 255 := by
  unfold degamma degammaCore rustRound
  have h1 : ((255 : ℕ) : ℝ) / 255 = 1 := by norm_num
  rw [h1, if_neg (by norm_num)]
  have h2 : ((1 : ℝ) + 0.055) / 1.055 = 1 := by norm_num
  rw [h2, Real.one_rpow]
  have h3 : (min (max ((1 : ℝ) * 255) 0) 255) = 255 := by norm_num
  rw [h3]
  have h4 : ⌊(255 : ℝ) + 1 / 2⌋ = 255 := by
    rw [Int.floor_eq_iff]
    norm_num
  rw [h4]
  rfl

lemma degamma_mono {a b : ℕ} (hab : a ≤ b) : degamma a ≤ degamma b := by
  unfold degamma
  apply Int.toNat_le_toNat
  apply rustRound_mono
  have hcore : degammaCore ((a : ℝ) / 255) ≤ degammaCore ((b : ℝ) / 255) := by
    refine degammaCore_mono (by positivity) ?_
    gcongr
  refine min_le_min (max_le_max ?_ le_rfl) le_rfl
  exact mul_le_mul_of_nonneg_right hcore (by norm_num)

/-- C4: `degamma` equals the two-segment inverse-sRGB transfer function
re-quantized with round-half-up and clamped to [0,255] (the source clamps
before rounding, the spec's wording rounds before clamping — the two agree on
every byte); `degamma 0 = 0`, `degamma 255 = 255`, and `degamma` is monotone
non-decreasing. -/
theorem c4_degamma_properties (val a b : ℕ) (hval : val ≤ 255) (hab : a ≤ b) :
    degamma val = degammaSpecOrder val ∧
    degamma 0 = 0 ∧ degamma 255 = 255 ∧ degamma a ≤ degamma b :=
  ⟨degamma_eq_spec_order hval, degamma_zero, degamma_255, degamma_mono hab⟩

theorem c4_degamma_properties_witness :
    ((7 : ℕ) ≤ 255 ∧ (3 : ℕ) ≤ 200) ∧ degamma 0 = 0 :=
  ⟨by norm_num, (c4_degamma_properties 7 3 200 (by norm_num) (by norm_num)).2.1⟩

/-! ## C3: the two brightness curves -/

lemma clampedRatio_eq {pct : ℕ} (h : pct ≤ 100) :
    min (max ((pct : ℝ) / 100) 0) 1 = (pct : ℝ) / 100 := by
  have h1 : ((pct : ℝ) / 100) ≤ 1 := by
    rw [div_le_one (by norm_num)]
    exact_mod_cast h
  rw [max_eq_left (by positivity), min_eq_left h1]

lemma scaleChannel_one (c : ℕ) : scaleChannel c 1 = c := by
  unfold scaleChannel
  rw [mul_one, Int.floor_natCast, Int.toNat_natCast]

lemma scaleChannel_zero (c : ℕ) : scaleChannel c 0 = 0 := by
  unfold scaleChannel
  rw [mul_zero, Int.floor_zero, Int.toNat_zero]

lemma powFactor_100 : powFactor 100 = 1 := by
  unfold powFactor
  rw [clampedRatio_eq (le_refl 100)]
  have h1 : ((100 : ℕ) : ℝ) / 100 = 1 := by norm_num
  rw [h1, Real.one_rpow]

lemma powFactor_0 : powFactor 0 = 0 := by
  unfold powFactor
  rw [clampedRatio_eq (by norm_num)]
  have h1 : ((0 : ℕ) : ℝ) / 100 = 0 := by norm_num
  rw [h1, Real.zero_rpow (by norm_num)]

/-- C3, counterexample: at pct = 50 on white, `apply_brightness` (the
manual-override brightness function in lib.rs) yields channel 127 — the
linear factor 1/2 — whereas the claimed power-law channel
`⌊255·(50/100)^2.8⌋` is below 64.  The claim that the `(p/100)^2.8` curve is
used for manual-override brightness is therefore false. -/
theorem c3_counterexample :
    apply_brightness (255, 255, 255) 50 ≠
      (scaleChannel 255 (((50 : ℝ) / 100) ^ (2.8 : ℝ)),
        scaleChannel 255 (((50 : ℝ) / 100) ^ (2.8 : ℝ)),
        scaleChannel 255 (((50 : ℝ) / 100) ^ (2.8 : ℝ))) := by
  have hhalf : ((50 : ℕ) : ℝ) / 100 = 1 / 2 := by norm_num
  have hL : (apply_brightness (255, 255, 255) 50).1 = 127 := by
    show scaleChannel 255 (min (max (((50 : ℕ) : ℝ) / 100) 0) 1) = 127
    rw [clampedRatio_eq (by norm_num), hhalf]
    unfold scaleChannel
    have hf : ⌊((255 : ℕ) : ℝ) * (1 / 2)⌋ = 127 := by
      rw [Int.floor_eq_iff]
      push_cast
      norm_num
    rw [hf]
    rfl
  have hx0 : (0 : ℝ) ≤ ((50 : ℝ) / 100) ^ (2.8 : ℝ) :=
    Real.rpow_nonneg (by norm_num) _
  have hxle : ((50 : ℝ) / 100) ^ (2.8 : ℝ) ≤ 1 / 4 := by
    have h1 : ((50 : ℝ) / 100) ^ (2.8 : ℝ) ≤ ((50 : ℝ) / 100) ^ (2 : ℝ) :=
      Real.rpow_le_rpow_of_exponent_ge (by norm_num) (by norm_num) (by norm_num)
    have h2 : ((50 : ℝ) / 100) ^ (2 : ℝ) = 1 / 4 := by
      rw [show (2 : ℝ) = ((2 : ℕ) : ℝ) by norm_num, Real.rpow_natCast]
      norm_num
    linarith
  have hR : scaleChannel 255 (((50 : ℝ) / 100) ^ (2.8 : ℝ)) < 127 := by
    unfold scaleChannel
    have hf : ⌊((255 : ℕ) : ℝ) * (((50 : ℝ) / 100) ^ (2.8 : ℝ))⌋ < 127 :=
      Int.floor_lt.mpr (by push_cast; nlinarith)
    omega
  intro h
  have h2 : (apply_brightness (255, 255, 255) 50).1 =
      scaleChannel 255 (((50 : ℝ) / 100) ^ (2.8 : ℝ)) := by rw [h]
  rw [hL] at h2
  omega

/-- C3, amended: the pulse high/low brightness function (`light_pct` and the
pulse worker) multiplies each channel by `(p/100)^2.8` truncated, while the
manual-override brightness function `apply_brightness` in lib.rs multiplies
each channel by the plain linear clamped factor `p/100` truncated; both
satisfy the endpoint identities at p = 100 and p = 0. -/
theorem c3_brightness_curves (r g b pct : ℕ) (hp : pct ≤ 100) :
    light_pct_rgb r g b pct =
      (⌊(r : ℝ) * (((pct : ℝ) / 100) ^ (2.8 : ℝ))⌋.toNat,
        ⌊(g : ℝ) * (((pct : ℝ) / 100) ^ (2.8 : ℝ))⌋.toNat,
        ⌊(b : ℝ) * (((pct : ℝ) / 100) ^ (2.8 : ℝ))⌋.toNat) ∧
    apply_brightness (r, g, b) pct =
      (⌊(r : ℝ) * ((pct : ℝ) / 100)⌋.toNat,
        ⌊(g : ℝ) * ((pct : ℝ) / 100)⌋.toNat,
        ⌊(b : ℝ) * ((pct : ℝ) / 100)⌋.toNat) ∧
    light_pct_rgb r g b 100 = (r, g, b) ∧
    light_pct_rgb r g b 0 = (0, 0, 0) ∧
    apply_brightness (r, g, b) 100 = (r, g, b) ∧
    apply_brightness (r, g, b) 0 = (0, 0, 0) := by
  refine ⟨?_, ?_, ?_, ?_, ?_, ?_⟩
  · unfold light_pct_rgb powFactor scaleChannel
    rw [clampedRatio_eq hp]
  · unfold apply_brightness scaleChannel
    rw [clampedRatio_eq hp]
  · unfold light_pct_rgb
    rw [powFactor_100, scaleChannel_one, scaleChannel_one, scaleChannel_one]
  · unfold light_pct_rgb
    rw [powFactor_0, scaleChannel_zero, scaleChannel_zero, scaleChannel_zero]
  · show (scaleChannel r (min (max (((100 : ℕ) : ℝ) / 100) 0) 1),
        scaleChannel g (min (max (((100 : ℕ) : ℝ) / 100) 0) 1),
        scaleChannel b (min (max (((100 : ℕ) : ℝ) / 100) 0) 1)) = (r, g, b)
    have h1 : min (max (((100 : ℕ) : ℝ) / 100) 0) 1 = 1 := by
      rw [clampedRatio_eq (le_refl 100)]
      norm_num
    rw [h1, scaleChannel_one, scaleChannel_one, scaleChannel_one]
  · show (scaleChannel r (min (max (((0 : ℕ) : ℝ) / 100) 0) 1),
        scaleChannel g (min (max (((0 : ℕ) : ℝ) / 100) 0) 1),
        scaleChannel b (min (max (((0 : ℕ) : ℝ) / 100) 0) 1)) = (0, 0, 0)
    have h1 : min (max (((0 : ℕ) : ℝ) / 100) 0) 1 = 0 := by
      rw [clampedRatio_eq (by norm_num)]
      norm_num
    rw [h1, scaleChannel_zero, scaleChannel_zero, scaleChannel_zero]

theorem c3_brightness_curves_witness :
    ((100 : ℕ) ≤ 100) ∧ light_pct_rgb 5 6 7 100 = (5, 6, 7) :=
  ⟨by norm_num, (c3_brightness_curves 5 6 7 100 (by norm_num)).2.2.1⟩

end Weatherlight
